import Mathlib

/-!
Shallow embedding of the IGL OpenGL texture buffer
(src/igl/opengl/TextureBuffer.cpp) in Lean 4.

Backend (GL context) interaction is modelled as a trace: every embedded
operation returns its `Result` together with the ordered list of backend
calls it issued.  Device features, the last-error poll, the bindless
handle resolver and other context services are fields of an environment
structure `Ctx`.  Machine integers are modelled as `Nat`; bit operations
use `Nat.land` / `Nat.lor`.  A `const void*` data pointer is modelled as
`Option Nat` (`none` is the null pointer).
-/

namespace Igl

/-- Result codes, from igl::Result::Code. -/
inductive Code where
  | Ok
  | ArgumentInvalid
  | Unsupported
  | InvalidOperation
  | Unimplemented
deriving DecidableEq, Repr

/-- igl::Result: a result code together with a message string. -/
structure Result where
  code : Code
  message : String
deriving DecidableEq, Repr

/-- Result::isOk(): the code equals Ok. -/
def Result.isOk (r : Result) : Bool :=
  r.code == Code.Ok

/-- The default-constructed Result(), which is Ok with an empty message. -/
def Result.okR : Result :=
  ⟨Code.Ok, ""⟩

/-- igl::TextureType (the variants dispatched on by TextureBuffer). -/
inductive TextureType where
  | Invalid
  | TwoD
  | TwoDArray
  | ThreeD
  | Cube
  | ExternalImage
deriving DecidableEq, Repr

/-- TextureDesc::TextureUsageBits::Sampled. -/
def sampledBit : Nat := 1

/-- TextureDesc::TextureUsageBits::Storage. -/
def storageBit : Nat := 2

/-- TextureDesc::TextureUsageBits::Attachment. -/
def attachmentBit : Nat := 4

-- GL enum constants (standard OpenGL values).
def GL_TEXTURE_2D : Nat := 0x0DE1
def GL_TEXTURE_2D_ARRAY : Nat := 0x8C1A
def GL_TEXTURE_3D : Nat := 0x806F
def GL_TEXTURE_CUBE_MAP : Nat := 0x8513
def GL_TEXTURE_EXTERNAL_OES : Nat := 0x8D65
def GL_TEXTURE_2D_MULTISAMPLE : Nat := 0x9100
def GL_TEXTURE_2D_MULTISAMPLE_ARRAY : Nat := 0x9102
def GL_UNPACK_ALIGNMENT : Nat := 0x0CF5
def GL_TEXTURE_MIN_FILTER : Nat := 0x2801
def GL_NEAREST : Nat := 0x2600
def GL_TEXTURE_SWIZZLE_R : Nat := 0x8E42
def GL_TEXTURE_SWIZZLE_G : Nat := 0x8E43
def GL_TEXTURE_SWIZZLE_B : Nat := 0x8E44
def GL_TEXTURE_SWIZZLE_A : Nat := 0x8E45
def GL_ZERO : Nat := 0
def GL_RED : Nat := 0x1903

/-- kCubeFaceTargets: maps TextureCube::CubeFace index to the GL cube face
target (GL_TEXTURE_CUBE_MAP_POSITIVE_X .. NEGATIVE_Z). -/
def kCubeFaceTargets : List Nat :=
  [0x8515, 0x8516, 0x8517, 0x8518, 0x8519, 0x851A]

/-- Logical texture formats, encoded as Nat tags.  The only tag whose exact
identity matters to the embedded code is A_UNorm8 (the swizzle workaround
keys on it); all other formats are arbitrary distinct tags. -/
def A_UNorm8 : Nat := 1
def RGBA_UNorm8 : Nat := 2
def RGBA_ASTC_4x4 : Nat := 3

/-- The resolved GL format triple, from FormatDescGL
(internalFormat, format, type). -/
structure FormatDescGL where
  internalFormat : Nat
  format : Nat
  type : Nat
deriving DecidableEq, Repr

/-- igl::TextureRangeDesc: one upload region. -/
structure TextureRangeDesc where
  x : Nat
  y : Nat
  z : Nat
  layer : Nat
  mipLevel : Nat
  width : Nat
  height : Nat
  depth : Nat
  numLayers : Nat
  numMipLevels : Nat
deriving DecidableEq, Repr

/-- igl::TextureDesc, the immutable creation descriptor. -/
structure TextureDesc where
  type : TextureType
  format : Nat
  usage : Nat
  numMipLevels : Nat
  numSamples : Nat
  numLayers : Nat
  width : Nat
  height : Nat
  depth : Nat
deriving DecidableEq, Repr

/-- The observable backend (GL context) calls, in source order of their
arguments.  A data pointer argument is `Option Nat` with `none` for null. -/
inductive GLCall where
  | bindTexture (target id : Nat)
  | pixelStorei (pname param : Nat)
  | texParameteri (target pname param : Nat)
  | setMaxMipLevel (target : Nat)
  | genTextures (id : Nat)
  | deleteTextures (id : Nat)
  | getTextureHandle (id : Nat)
  | makeTextureHandleResident (handle : Nat)
  | makeTextureHandleNonResident (handle : Nat)
  | texImage1D (target level internalFormat width border format type : Nat)
      (data : Option Nat)
  | texSubImage1D (target level x width format type : Nat) (data : Option Nat)
  | compressedTexImage1D (target level internalFormat width border size : Nat)
      (data : Option Nat)
  | compressedTexSubImage1D (target level x width internalFormat size : Nat)
      (data : Option Nat)
  | texImage2D (target level internalFormat width height border format type : Nat)
      (data : Option Nat)
  | texSubImage2D (target level x y width height format type : Nat)
      (data : Option Nat)
  | compressedTexImage2D (target level internalFormat width height border size : Nat)
      (data : Option Nat)
  | compressedTexSubImage2D (target level x y width height internalFormat size : Nat)
      (data : Option Nat)
  | texImage3D (target level internalFormat width height depth border format type : Nat)
      (data : Option Nat)
  | texSubImage3D (target level x y z width height depth format type : Nat)
      (data : Option Nat)
  | compressedTexImage3D
      (target level internalFormat width height depth border size : Nat)
      (data : Option Nat)
  | compressedTexSubImage3D
      (target level x y z width height depth internalFormat size : Nat)
      (data : Option Nat)
  | texStorage2D (target levels internalFormat width height : Nat)
  | texStorage3D (target levels internalFormat width height depth : Nat)
deriving DecidableEq, Repr

/-- The environment: device features, context services and the two pieces
of repository code outside the embedded file (format resolution and the
base-class create), kept abstract.
`lastError` models the poll-after-call error contract: getLastError()
returns this fixed result whenever polled. -/
structure Ctx where
  /-- InternalFeatures::TexStorage. -/
  texStorageFeature : Bool
  /-- DeviceFeatures::Texture2DArray. -/
  texture2DArray : Bool
  /-- DeviceFeatures::Texture3D. -/
  texture3D : Bool
  /-- InternalRequirement::SwizzleAlphaTexturesReq. -/
  swizzleAlphaReq : Bool
  /-- TextureFeatures::TextureCompressionTexStorage. -/
  texCompressionTexStorage : Bool
  /-- TextureFeatures::TextureCompressionTexImage. -/
  texCompressionTexImage : Bool
  /-- Whether getTextureFormatCapabilities(format) contains the Storage bit. -/
  formatCapStorage : Nat → Bool
  /-- TextureFormatProperties::isCompressed() for a format tag. -/
  formatIsCompressed : Nat → Bool
  /-- TextureFormatProperties::getBytesPerRange for a region. -/
  bytesPerRange : TextureRangeDesc → Nat
  /-- Texture::getAlignment(bytesPerRow, mipLevel). -/
  alignmentOf : Nat → Nat → Nat
  /-- The result returned by getLastError() when polled. -/
  lastError : Result
  /-- getTextureHandle(id): the bindless handle the backend resolves. -/
  handleOf : Nat → Nat
  /-- toFormatDescGL(format, usage): none when the pair is not in the catalog. -/
  toFormatDescGL : Nat → Nat → Option FormatDescGL
  /-- The id produced by genTextures. -/
  genTextureId : Nat
  /-- Modelled from the spec: the result of Texture::create (Super::create),
  whose body is outside the embedded file; kept abstract as a function of
  the hasStorageAlready flag. -/
  superCreate : Bool → Result

/-- The state of one TextureBuffer resource. -/
structure TextureBuffer where
  /-- getId(): the backend object id (0 when never allocated). -/
  textureId : Nat
  /-- type_: the dimensionality. -/
  type : TextureType
  /-- getUsage(): the usage bitset. -/
  usage : Nat
  /-- getFormat(): the logical format tag. -/
  format : Nat
  numMipLevels : Nat
  numSamples : Nat
  width : Nat
  height : Nat
  depth : Nat
  numLayers : Nat
  /-- textureHandle_: the cached bindless handle (0 = unresolved). -/
  textureHandle : Nat
  /-- formatDescGL_: the resolved GL format triple. -/
  formatDescGL : FormatDescGL
  /-- glInternalFormat_. -/
  glInternalFormat : Nat
deriving DecidableEq, Repr

/-- Modelled from the spec: toGLTarget (in opengl/Texture.cpp, outside the
embedded file) maps a dimensionality to its GL bind target, 0 when the
backend has no such target; multisample counts select multisample targets. -/
def toGLTarget (type : TextureType) (numSamples : Nat) : Nat :=
  match type with
  | TextureType.TwoD =>
      if numSamples > 1 then GL_TEXTURE_2D_MULTISAMPLE else GL_TEXTURE_2D
  | TextureType.TwoDArray =>
      if numSamples > 1 then GL_TEXTURE_2D_MULTISAMPLE_ARRAY else GL_TEXTURE_2D_ARRAY
  | TextureType.ThreeD => GL_TEXTURE_3D
  | TextureType.Cube => GL_TEXTURE_CUBE_MAP
  | TextureType.ExternalImage => GL_TEXTURE_EXTERNAL_OES
  | TextureType.Invalid => 0

/-- getTarget(): the stored target, which createTexture sets to
toGLTarget(type, numSamples). -/
def getTarget (t : TextureBuffer) : Nat :=
  toGLTarget t.type t.numSamples

/-- The extent of one dimension at a mip level: dimension >> mipLevel,
clamped to at least 1. -/
def mipDim (d mip : Nat) : Nat :=
  max (d >>> mip) 1

/-- supportsTexStorage(): usage has the Storage bit and the format
capabilities contain the Storage capability.  True exactly when the
resource was allocated with immutable (TexStorage) storage. -/
def supportsTexStorage (ctx : Ctx) (t : TextureBuffer) : Bool :=
  (t.usage &&& storageBit ≠ 0) && ctx.formatCapStorage t.format

/-- Modelled from the spec: Texture::isValidForTexImage (outside the
embedded file) holds iff the range covers the full extent of the resource
at its mip level (all offsets zero, extents equal to the mip extents, all
layers). -/
def isValidForTexImage (t : TextureBuffer) (range : TextureRangeDesc) : Bool :=
  range.x == 0 && range.y == 0 && range.z == 0 && range.layer == 0 &&
  range.width == mipDim t.width range.mipLevel &&
  range.height == mipDim t.height range.mipLevel &&
  range.depth == mipDim t.depth range.mipLevel &&
  range.numLayers == t.numLayers

/-- Modelled from the spec: Texture::validateRange (outside the embedded
file) checks the range against the resource bounds at its mip level:
offset plus extent must not exceed the extent at that mip level, the
extents must be positive, and the mip levels must lie inside the chain. -/
def validateRange (t : TextureBuffer) (range : TextureRangeDesc) : Result :=
  if range.numMipLevels ≥ 1 ∧
      range.mipLevel + range.numMipLevels ≤ t.numMipLevels ∧
      range.width ≥ 1 ∧ range.height ≥ 1 ∧ range.depth ≥ 1 ∧
      range.numLayers ≥ 1 ∧
      range.x + range.width ≤ mipDim t.width range.mipLevel ∧
      range.y + range.height ≤ mipDim t.height range.mipLevel ∧
      range.z + range.depth ≤ mipDim t.depth range.mipLevel ∧
      range.layer + range.numLayers ≤ t.numLayers then
    Result.okR
  else
    ⟨Code.ArgumentInvalid, "Range out of bounds"⟩

/-- Modelled from the spec: Texture::getFullRange(mipLevel, numMipLevels)
(outside the embedded file) is the full-extent range at the given mip
level. -/
def getFullRange (t : TextureBuffer) (mipLevel numMipLevels : Nat) : TextureRangeDesc :=
  { x := 0, y := 0, z := 0, layer := 0
    mipLevel := mipLevel
    width := mipDim t.width mipLevel
    height := mipDim t.height mipLevel
    depth := mipDim t.depth mipLevel
    numLayers := t.numLayers
    numMipLevels := numMipLevels }

/-- TextureBuffer::upload1D(target, range, data): validate, choose the
TexImage path iff the range is full-extent and the texture was not
allocated with TexStorage, then issue the plain or compressed variant. -/
def upload1D (ctx : Ctx) (t : TextureBuffer) (target : Nat)
    (range : TextureRangeDesc) (data : Option Nat) : Result × List GLCall :=
  let result := validateRange t range
  if ¬ result.isOk then (result, [])
  else
    let texImage := isValidForTexImage t range && ! supportsTexStorage ctx t
    if data.isNone || ! ctx.formatIsCompressed t.format then
      if texImage then
        (ctx.lastError,
         [GLCall.texImage1D target range.mipLevel t.formatDescGL.internalFormat
            range.width 0 t.formatDescGL.format t.formatDescGL.type data])
      else
        (ctx.lastError,
         [GLCall.texSubImage1D target range.mipLevel range.x range.width
            t.formatDescGL.format t.formatDescGL.type data])
    else
      let numCompressedBytes := ctx.bytesPerRange range
      if texImage then
        (ctx.lastError,
         [GLCall.compressedTexImage1D target range.mipLevel
            t.formatDescGL.internalFormat range.width 0 numCompressedBytes data])
      else
        (ctx.lastError,
         [GLCall.compressedTexSubImage1D (getTarget t) range.mipLevel range.x
            range.width t.formatDescGL.internalFormat numCompressedBytes data])

/-- TextureBuffer::upload1DArray(target, range, data): like upload1D but the
layer slot rides in the second spatial slot of the 2D transfer calls. -/
def upload1DArray (ctx : Ctx) (t : TextureBuffer) (target : Nat)
    (range : TextureRangeDesc) (data : Option Nat) : Result × List GLCall :=
  let result := validateRange t range
  if ¬ result.isOk then (result, [])
  else
    let texImage := isValidForTexImage t range && ! supportsTexStorage ctx t
    if data.isNone || ! ctx.formatIsCompressed t.format then
      if texImage then
        (ctx.lastError,
         [GLCall.texImage2D target range.mipLevel t.formatDescGL.internalFormat
            range.width range.numLayers 0 t.formatDescGL.format
            t.formatDescGL.type data])
      else
        (ctx.lastError,
         [GLCall.texSubImage2D target range.mipLevel range.x range.layer
            range.width range.numLayers t.formatDescGL.format
            t.formatDescGL.type data])
    else
      let numCompressedBytes := ctx.bytesPerRange range
      if texImage then
        (ctx.lastError,
         [GLCall.compressedTexImage2D target range.mipLevel
            t.formatDescGL.internalFormat range.width range.numLayers 0
            numCompressedBytes data])
      else
        (ctx.lastError,
         [GLCall.compressedTexSubImage2D (getTarget t) range.mipLevel range.x
            range.layer range.width range.numLayers
            t.formatDescGL.internalFormat numCompressedBytes data])

/-- TextureBuffer::upload2D(target, range, data). -/
def upload2D (ctx : Ctx) (t : TextureBuffer) (target : Nat)
    (range : TextureRangeDesc) (data : Option Nat) : Result × List GLCall :=
  let result := validateRange t range
  if ¬ result.isOk then (result, [])
  else
    let texImage := isValidForTexImage t range && ! supportsTexStorage ctx t
    if data.isNone || ! ctx.formatIsCompressed t.format then
      if texImage then
        (ctx.lastError,
         [GLCall.texImage2D target range.mipLevel t.formatDescGL.internalFormat
            range.width range.height 0 t.formatDescGL.format
            t.formatDescGL.type data])
      else
        (ctx.lastError,
         [GLCall.texSubImage2D target range.mipLevel range.x range.y
            range.width range.height t.formatDescGL.format
            t.formatDescGL.type data])
    else
      let numCompressedBytes := ctx.bytesPerRange range
      if texImage then
        (ctx.lastError,
         [GLCall.compressedTexImage2D target range.mipLevel
            t.formatDescGL.internalFormat range.width range.height 0
            numCompressedBytes data])
      else
        (ctx.lastError,
         [GLCall.compressedTexSubImage2D (getTarget t) range.mipLevel range.x
            range.y range.width range.height t.formatDescGL.internalFormat
            numCompressedBytes data])

/-- TextureBuffer::upload2DArray(target, range, data). -/
def upload2DArray (ctx : Ctx) (t : TextureBuffer) (target : Nat)
    (range : TextureRangeDesc) (data : Option Nat) : Result × List GLCall :=
  let result := validateRange t range
  if ¬ result.isOk then (result, [])
  else
    let texImage := isValidForTexImage t range && ! supportsTexStorage ctx t
    if data.isNone || ! ctx.formatIsCompressed t.format then
      if texImage then
        (ctx.lastError,
         [GLCall.texImage3D target range.mipLevel t.formatDescGL.internalFormat
            range.width range.height range.numLayers 0 t.formatDescGL.format
            t.formatDescGL.type data])
      else
        (ctx.lastError,
         [GLCall.texSubImage3D target range.mipLevel range.x range.y
            range.layer range.width range.height range.numLayers
            t.formatDescGL.format t.formatDescGL.type data])
    else
      let numCompressedBytes := ctx.bytesPerRange range
      if texImage then
        (ctx.lastError,
         [GLCall.compressedTexImage3D target range.mipLevel
            t.formatDescGL.internalFormat range.width range.height
            range.numLayers 0 numCompressedBytes data])
      else
        (ctx.lastError,
         [GLCall.compressedTexSubImage3D (getTarget t) range.mipLevel range.x
            range.y range.layer range.width range.height range.numLayers
            t.formatDescGL.internalFormat numCompressedBytes data])

/-- TextureBuffer::upload3D(target, range, data). -/
def upload3D (ctx : Ctx) (t : TextureBuffer) (target : Nat)
    (range : TextureRangeDesc) (data : Option Nat) : Result × List GLCall :=
  let result := validateRange t range
  if ¬ result.isOk then (result, [])
  else
    let texImage := isValidForTexImage t range && ! supportsTexStorage ctx t
    if data.isNone || ! ctx.formatIsCompressed t.format then
      if texImage then
        (ctx.lastError,
         [GLCall.texImage3D target range.mipLevel t.formatDescGL.internalFormat
            range.width range.height range.depth 0 t.formatDescGL.format
            t.formatDescGL.type data])
      else
        (ctx.lastError,
         [GLCall.texSubImage3D target range.mipLevel range.x range.y range.z
            range.width range.height range.depth t.formatDescGL.format
            t.formatDescGL.type data])
    else
      let numCompressedBytes := ctx.bytesPerRange range
      if texImage then
        (ctx.lastError,
         [GLCall.compressedTexImage3D target range.mipLevel
            t.formatDescGL.internalFormat range.width range.height range.depth
            0 numCompressedBytes data])
      else
        (ctx.lastError,
         [GLCall.compressedTexSubImage3D (getTarget t) range.mipLevel range.x
            range.y range.z range.width range.height range.depth
            t.formatDescGL.internalFormat numCompressedBytes data])

/-- The cube branch of the GLenum upload overload: iterate the six canonical
face targets in order through upload2D, stopping at the first failure. -/
def uploadCubeFaces (ctx : Ctx) (t : TextureBuffer) (range : TextureRangeDesc)
    (data : Option Nat) : List Nat → Result × List GLCall
  | [] => (Result.okR, [])
  | f :: fs =>
      let step := upload2D ctx t f range data
      if step.1.isOk then
        let rest := uploadCubeFaces ctx t range data fs
        (rest.1, step.2 ++ rest.2)
      else
        (step.1, step.2)

/-- TextureBuffer::upload(GLenum target, range, data, bytesPerRow): the
internal overload.  Rejects multi-mip ranges as Unimplemented, sets the
unpack alignment, then dispatches on the dimensionality. -/
def uploadToTarget (ctx : Ctx) (t : TextureBuffer) (target : Nat)
    (range : TextureRangeDesc) (data : Option Nat) (bytesPerRow : Nat) :
    Result × List GLCall :=
  if range.numMipLevels > 1 then
    (⟨Code.Unimplemented, "Uploading to more than 1 mip level is not yet supported."⟩, [])
  else
    let ps := GLCall.pixelStorei GL_UNPACK_ALIGNMENT
      (ctx.alignmentOf bytesPerRow range.mipLevel)
    match t.type with
    | TextureType.TwoD =>
        let r := upload2D ctx t target range data
        (r.1, ps :: r.2)
    | TextureType.TwoDArray =>
        if ¬ ctx.texture2DArray then
          (⟨Code.Unsupported, "Unsupported texture type"⟩, [ps])
        else
          let r := upload2DArray ctx t target range data
          (r.1, ps :: r.2)
    | TextureType.ThreeD =>
        if ¬ ctx.texture3D then
          (⟨Code.Unsupported, "Unsupported texture type"⟩, [ps])
        else
          let r := upload3D ctx t target range data
          (r.1, ps :: r.2)
    | TextureType.Cube =>
        let r := uploadCubeFaces ctx t range data kCubeFaceTargets
        (r.1, ps :: r.2)
    | _ =>
        (⟨Code.InvalidOperation, "Unknown texture type"⟩, [ps])

/-- TextureBuffer::upload(range, data, bytesPerRow): the public entry.
Null data returns Ok at once; otherwise bind the target, run the internal
overload, and unbind. -/
def upload (ctx : Ctx) (t : TextureBuffer) (range : TextureRangeDesc)
    (data : Option Nat) (bytesPerRow : Nat) : Result × List GLCall :=
  if data.isNone then (Result.okR, [])
  else
    let target := getTarget t
    if target = 0 then (⟨Code.InvalidOperation, "Unknown texture type"⟩, [])
    else
      let r := uploadToTarget ctx t target range data bytesPerRow
      (r.1, GLCall.bindTexture target t.textureId ::
            (r.2 ++ [GLCall.bindTexture (getTarget t) 0]))

/-- TextureBuffer::uploadCube(range, face, data, bytesPerRow): null data is
Ok at once, multi-mip is Unimplemented, a non-cube target is
InvalidOperation before any bind; otherwise set alignment, bind, upload the
one face through upload2D, unbind, and return Result() discarding the face
upload result. -/
def uploadCube (ctx : Ctx) (t : TextureBuffer) (range : TextureRangeDesc)
    (face : Fin 6) (data : Option Nat) (bytesPerRow : Nat) :
    Result × List GLCall :=
  if data.isNone then (Result.okR, [])
  else if range.numMipLevels > 1 then
    (⟨Code.Unimplemented, "Uploading to more than 1 mip level is not yet supported."⟩, [])
  else
    let target := getTarget t
    if target ≠ GL_TEXTURE_CUBE_MAP then
      (⟨Code.InvalidOperation, "upload2D can only upload to 2D textures"⟩, [])
    else
      let cubeTarget := kCubeFaceTargets.getD face.val 0
      let r := upload2D ctx t cubeTarget range data
      (Result.okR,
       GLCall.pixelStorei GL_UNPACK_ALIGNMENT
           (ctx.alignmentOf bytesPerRow range.mipLevel) ::
         GLCall.bindTexture target t.textureId ::
         (r.2 ++ [GLCall.bindTexture target 0]))

/-- TextureBuffer::getTextureId(): on first call (cached handle 0) resolve
the bindless handle and mark it resident, caching it; later calls return
the cache with no backend calls.  Returns the value, the updated resource
state and the backend trace. -/
def getTextureId (ctx : Ctx) (t : TextureBuffer) :
    Nat × TextureBuffer × List GLCall :=
  if t.textureHandle = 0 then
    let h := ctx.handleOf t.textureId
    (h, { t with textureHandle := h },
     [GLCall.getTextureHandle t.textureId, GLCall.makeTextureHandleResident h])
  else
    (t.textureHandle, t, [])

/-- n successive calls to getTextureId: the list of returned values, the
final state, and the concatenated backend trace. -/
def getTextureIdTimes (ctx : Ctx) (t : TextureBuffer) :
    Nat → List Nat × TextureBuffer × List GLCall
  | 0 => ([], t, [])
  | n + 1 =>
      let first := getTextureId ctx t
      let rest := getTextureIdTimes ctx first.2.1 n
      (first.1 :: rest.1, rest.2.1, first.2.2 ++ rest.2.2)

/-- TextureBuffer::~TextureBuffer(): when a backend object exists, first
make a resolved handle non-resident, then delete the texture; a never
allocated resource (id 0) issues nothing. -/
def destructor (t : TextureBuffer) : List GLCall :=
  if t.textureId ≠ 0 then
    (if t.textureHandle ≠ 0 then
       [GLCall.makeTextureHandleNonResident t.textureHandle]
     else []) ++ [GLCall.deleteTextures t.textureId]
  else []

/-- swapTextureChannelsForFormat: the one-time alpha-to-red swizzle
workaround, applied only for A_UNorm8 when the backend requires it. -/
def swapTextureChannelsForFormat (ctx : Ctx) (target : Nat) (iglFormat : Nat) :
    List GLCall :=
  if iglFormat = A_UNorm8 ∧ ctx.swizzleAlphaReq then
    [GLCall.texParameteri target GL_TEXTURE_SWIZZLE_R GL_ZERO,
     GLCall.texParameteri target GL_TEXTURE_SWIZZLE_G GL_ZERO,
     GLCall.texParameteri target GL_TEXTURE_SWIZZLE_B GL_ZERO,
     GLCall.texParameteri target GL_TEXTURE_SWIZZLE_A GL_RED]
  else []

/-- TextureBuffer::canInitialize(). -/
def canInitialize (ctx : Ctx) (t : TextureBuffer) : Bool :=
  ! ctx.formatIsCompressed t.format ||
  (supportsTexStorage ctx t && ctx.texCompressionTexStorage) ||
  ctx.texCompressionTexImage

/-- The loop body of TextureBuffer::initializeWithUpload over a list of mip
levels: upload a null-data full range per level, returning at the first
failing result. -/
def initUploadLevels (ctx : Ctx) (t : TextureBuffer) :
    List Nat → Result × List GLCall
  | [] => (Result.okR, [])
  | i :: rest =>
      let step := uploadToTarget ctx t (getTarget t) (getFullRange t i 1) none 0
      if ¬ step.1.isOk then (step.1, step.2)
      else
        let r := initUploadLevels ctx t rest
        (r.1, step.2 ++ r.2)

/-- TextureBuffer::initializeWithUpload(): iterate mip levels 0..N-1
uploading a null data pointer at the full extent of each level. -/
def initializeWithUpload (ctx : Ctx) (t : TextureBuffer) : Result × List GLCall :=
  initUploadLevels ctx t (List.range t.numMipLevels)

/-- TextureBuffer::initializeWithTexStorage(): a single dimension-specific
texStorage call reserving all mip levels at full extent, then poll the
last error. -/
def initializeWithTexStorage (ctx : Ctx) (t : TextureBuffer) :
    Result × List GLCall :=
  let range := getFullRange t 0 t.numMipLevels
  let target := getTarget t
  match t.type with
  | TextureType.TwoD =>
      (ctx.lastError,
       [GLCall.texStorage2D target range.numMipLevels t.glInternalFormat
          range.width range.height])
  | TextureType.TwoDArray =>
      (ctx.lastError,
       [GLCall.texStorage3D target range.numMipLevels t.glInternalFormat
          range.width range.height range.numLayers])
  | TextureType.ThreeD =>
      (ctx.lastError,
       [GLCall.texStorage3D target range.numMipLevels t.glInternalFormat
          range.width range.height range.depth])
  | TextureType.Cube =>
      (ctx.lastError,
       [GLCall.texStorage2D target range.numMipLevels t.glInternalFormat
          range.width range.height])
  | _ =>
      (⟨Code.InvalidOperation, "Unknown texture type"⟩, [])

/-- TextureBuffer::initialize(): bind, set the max mip level, disable
mipmap filtering for single-level chains, apply the swizzle workaround for
non-compressed formats, then populate storage (through upload or
TexStorage) when the format can be initialized, and unbind. -/
def initializeTexture (ctx : Ctx) (t : TextureBuffer) : Result × List GLCall :=
  let target := getTarget t
  if target = 0 then (⟨Code.InvalidOperation, "Unknown texture type"⟩, [])
  else
    let pre :=
      GLCall.bindTexture target t.textureId ::
      GLCall.setMaxMipLevel target ::
      ((if t.numMipLevels = 1 then
          [GLCall.texParameteri target GL_TEXTURE_MIN_FILTER GL_NEAREST]
        else []) ++
       (if ¬ ctx.formatIsCompressed t.format then
          swapTextureChannelsForFormat ctx target t.format
        else []))
    let body :=
      if canInitialize ctx t then
        if ¬ supportsTexStorage ctx t then initializeWithUpload ctx t
        else initializeWithTexStorage ctx t
      else (Result.okR, [])
    (body.1, pre ++ body.2 ++ [GLCall.bindTexture (getTarget t) 0])

/-- The TextureBuffer state that createTexture builds for a descriptor
(setTextureBufferProperties + setUsage + format resolution results). -/
def mkTextureBuffer (ctx : Ctx) (desc : TextureDesc) (fd : FormatDescGL) :
    TextureBuffer :=
  { textureId := ctx.genTextureId
    type := desc.type
    usage := desc.usage
    format := desc.format
    numMipLevels := desc.numMipLevels
    numSamples := desc.numSamples
    width := desc.width
    height := desc.height
    depth := desc.depth
    numLayers := desc.numLayers
    textureHandle := 0
    formatDescGL := fd
    glInternalFormat := fd.internalFormat }

/-- TextureBuffer::createTexture(desc): resolve the target and the format
(adding Sampled for resolution when Storage is absent), check storage
support, allocate the texture id, then initialize unless the texture is an
external image. -/
def createTexture (ctx : Ctx) (desc : TextureDesc) : Result × List GLCall :=
  let target := toGLTarget desc.type desc.numSamples
  if target = 0 then (⟨Code.Unsupported, "Unsupported texture target"⟩, [])
  else
    let usageForFormat :=
      if desc.usage &&& storageBit = 0 then desc.usage ||| sampledBit
      else desc.usage
    match ctx.toFormatDescGL desc.format usageForFormat with
    | none => (⟨Code.ArgumentInvalid, "Invalid texture format"⟩, [])
    | some fd =>
        if ¬ ctx.formatIsCompressed desc.format ∧ fd.type = 0 then
          (⟨Code.ArgumentInvalid, "Invalid texture type"⟩, [])
        else if desc.usage &&& storageBit ≠ 0 ∧ ¬ ctx.texStorageFeature then
          (⟨Code.Unsupported, "Texture Storage not supported"⟩, [])
        else
          let t := mkTextureBuffer ctx desc fd
          if desc.type = TextureType.ExternalImage then
            (Result.okR, [GLCall.genTextures ctx.genTextureId])
          else
            let r := initializeTexture ctx t
            (r.1, GLCall.genTextures ctx.genTextureId :: r.2)

/-- TextureBuffer::create(desc, hasStorageAlready): run the base class
create, then gate a 2D single-mip descriptor with neither Sampled nor
Storage usage as Unsupported before any allocation; every other descriptor
goes to createTexture. -/
def create (ctx : Ctx) (desc : TextureDesc) (hasStorageAlready : Bool) :
    Result × List GLCall :=
  let result := ctx.superCreate hasStorageAlready
  if result.isOk then
    if (desc.usage &&& (sampledBit ||| storageBit)) ≠ 0 ∨
        desc.type ≠ TextureType.TwoD ∨ desc.numMipLevels > 1 then
      createTexture ctx desc
    else
      (⟨Code.Unsupported, "invalid usage!"⟩, [])
  else (result, [])

/-- A transfer call: one of the TexImage / TexSubImage / compressed
variants (the calls that replace an image or a sub-image). -/
def isTransferCall : GLCall → Bool
  | GLCall.texImage1D _ _ _ _ _ _ _ _ => true
  | GLCall.texSubImage1D _ _ _ _ _ _ _ => true
  | GLCall.compressedTexImage1D _ _ _ _ _ _ _ => true
  | GLCall.compressedTexSubImage1D _ _ _ _ _ _ _ => true
  | GLCall.texImage2D _ _ _ _ _ _ _ _ _ => true
  | GLCall.texSubImage2D _ _ _ _ _ _ _ _ _ => true
  | GLCall.compressedTexImage2D _ _ _ _ _ _ _ _ => true
  | GLCall.compressedTexSubImage2D _ _ _ _ _ _ _ _ _ => true
  | GLCall.texImage3D _ _ _ _ _ _ _ _ _ _ => true
  | GLCall.texSubImage3D _ _ _ _ _ _ _ _ _ _ _ => true
  | GLCall.compressedTexImage3D _ _ _ _ _ _ _ _ _ => true
  | GLCall.compressedTexSubImage3D _ _ _ _ _ _ _ _ _ _ _ => true
  | _ => false

/-- An image-replace transfer: TexImage or compressed TexImage (as opposed
to the sub-image-replace TexSubImage family). -/
def isImageReplaceCall : GLCall → Bool
  | GLCall.texImage1D _ _ _ _ _ _ _ _ => true
  | GLCall.compressedTexImage1D _ _ _ _ _ _ _ => true
  | GLCall.texImage2D _ _ _ _ _ _ _ _ _ => true
  | GLCall.compressedTexImage2D _ _ _ _ _ _ _ _ => true
  | GLCall.texImage3D _ _ _ _ _ _ _ _ _ _ => true
  | GLCall.compressedTexImage3D _ _ _ _ _ _ _ _ _ => true
  | _ => false

/-- A storage-reservation call: texStorage2D or texStorage3D. -/
def isStorageReservationCall : GLCall → Bool
  | GLCall.texStorage2D _ _ _ _ _ => true
  | GLCall.texStorage3D _ _ _ _ _ _ => true
  | _ => false

/-- A bindTexture call. -/
def isBindCall : GLCall → Bool
  | GLCall.bindTexture _ _ => true
  | _ => false

/-- The ids bound to a given target by a trace, in order. -/
def bindEvents (trace : List GLCall) (tgt : Nat) : List Nat :=
  trace.filterMap fun c =>
    match c with
    | GLCall.bindTexture target id => if target = tgt then some id else none
    | _ => none

/-- A trace leaves every target unbound: for each target, either the trace
never bound it or the last binding it issued for it is 0. -/
def restoresBindings (trace : List GLCall) : Prop :=
  ∀ tgt : Nat, bindEvents trace tgt = [] ∨ (bindEvents trace tgt).getLast? = some 0

-- Concrete fixtures used by witnesses and counterexamples.

/-- A device with every feature, a Mutable-only format capability set, an
uncompressed format, an Ok last-error poll, and a simple handle resolver. -/
def ctx0 : Ctx :=
  { texStorageFeature := true
    texture2DArray := true
    texture3D := true
    swizzleAlphaReq := false
    texCompressionTexStorage := true
    texCompressionTexImage := true
    formatCapStorage := fun _ => false
    formatIsCompressed := fun _ => false
    bytesPerRange := fun _ => 8
    alignmentOf := fun _ _ => 4
    lastError := Result.okR
    handleOf := fun i => 100 + i
    toFormatDescGL := fun _ _ => some ⟨0x8058, 0x1908, 0x1401⟩
    genTextureId := 7
    superCreate := fun _ => Result.okR }

/-- ctx0 with a Storage-capable format capability set (Immutable path). -/
def ctxStorage : Ctx :=
  { ctx0 with formatCapStorage := fun _ => true }

/-- A 4x4 2D Sampled single-mip texture, allocated as id 5. -/
def tex2D : TextureBuffer :=
  { textureId := 5
    type := TextureType.TwoD
    usage := sampledBit
    format := RGBA_UNorm8
    numMipLevels := 1
    numSamples := 1
    width := 4
    height := 4
    depth := 1
    numLayers := 1
    textureHandle := 0
    formatDescGL := ⟨0x8058, 0x1908, 0x1401⟩
    glInternalFormat := 0x8058 }

/-- A 4x4 cube texture with two mip levels. -/
def texCube : TextureBuffer :=
  { tex2D with type := TextureType.Cube, numMipLevels := 2 }

/-- The full-extent single-mip range of a 4x4 level-0 surface. -/
def fullRange44 : TextureRangeDesc :=
  { x := 0, y := 0, z := 0, layer := 0, mipLevel := 0
    width := 4, height := 4, depth := 1, numLayers := 1, numMipLevels := 1 }

/-- A partial 2x2 region at offset (1,1) of the 4x4 level-0 surface. -/
def subRange22 : TextureRangeDesc :=
  { fullRange44 with x := 1, y := 1, width := 2, height := 2 }

/-- A full-extent range declaring two mip levels. -/
def rangeMips2 : TextureRangeDesc :=
  { fullRange44 with numMipLevels := 2 }

/-- texCube allocated with Storage usage on a Storage-capable format
(the Immutable / TexStorage allocation path). -/
def texCubeStorage : TextureBuffer :=
  { texCube with usage := storageBit }

/-- A range exceeding the 4x4 extent (width 5), so validation fails. -/
def badRange : TextureRangeDesc :=
  { fullRange44 with width := 5 }

/-- A 2D single-mip descriptor with only Attachment usage (neither Sampled
nor Storage). -/
def descAttachment : TextureDesc :=
  { type := TextureType.TwoD, format := RGBA_UNorm8, usage := attachmentBit
    numMipLevels := 1, numSamples := 1, numLayers := 1
    width := 4, height := 4, depth := 1 }

/-- descAttachment with Sampled usage added. -/
def descSampled : TextureDesc :=
  { descAttachment with usage := sampledBit }

/-- One spec-side step of MipChainInitializer for Mutable allocation:
when no failure has been recorded, invoke the uploader with a null data
pointer at the full extent of level i, appending its calls and recording
its result if it failed; after a failure, do nothing. -/
def mipStep (ctx : Ctx) (t : TextureBuffer) (acc : Result × List GLCall)
    (i : Nat) : Result × List GLCall :=
  if acc.1.isOk then
    let step := uploadToTarget ctx t (getTarget t) (getFullRange t i 1) none 0
    (if step.1.isOk then acc.1 else step.1, acc.2 ++ step.2)
  else acc

/-- The spec wording of MipChainInitializer for Mutable allocation, written
as a left fold over mip levels 0..N-1 in order. -/
def mipChainMutableSpec (ctx : Ctx) (t : TextureBuffer) : Result × List GLCall :=
  (List.range t.numMipLevels).foldl (mipStep ctx t) (Result.okR, [])

/-- A reservation call covering the whole mip chain of the resource at full
extent, with the dimension-appropriate entry point and third dimension. -/
def reservesAllMipsFullExtent (t : TextureBuffer) (c : GLCall) : Bool :=
  match t.type, c with
  | TextureType.TwoD, GLCall.texStorage2D _ levels _ w h =>
      levels == t.numMipLevels && w == mipDim t.width 0 && h == mipDim t.height 0
  | TextureType.Cube, GLCall.texStorage2D _ levels _ w h =>
      levels == t.numMipLevels && w == mipDim t.width 0 && h == mipDim t.height 0
  | TextureType.TwoDArray, GLCall.texStorage3D _ levels _ w h d =>
      levels == t.numMipLevels && w == mipDim t.width 0 && h == mipDim t.height 0 &&
        d == t.numLayers
  | TextureType.ThreeD, GLCall.texStorage3D _ levels _ w h d =>
      levels == t.numMipLevels && w == mipDim t.width 0 && h == mipDim t.height 0 &&
        d == mipDim t.depth 0
  | _, _ => false

-- Theorems.

/-- Every call issued by upload1D is a transfer call whose image-replace
status equals the full-extent-and-mutable predicate. -/
theorem upload1D_path (ctx : Ctx) (t : TextureBuffer) (target : Nat)
    (range : TextureRangeDesc) (data : Option Nat) :
    ∀ c ∈ (upload1D ctx t target range data).2,
      isTransferCall c = true ∧
      isImageReplaceCall c =
        (isValidForTexImage t range && ! supportsTexStorage ctx t) := by
  intro c hc
  unfold upload1D at hc
  cases hv : (validateRange t range).isOk with
  | false => simp [hv] at hc
  | true =>
      simp only [hv] at hc
      cases hb : (isValidForTexImage t range && ! supportsTexStorage ctx t) <;>
        cases hd : (data.isNone || ! ctx.formatIsCompressed t.format) <;>
          simp [hb, hd] at hc <;> subst hc <;>
            simp [isTransferCall, isImageReplaceCall, hb]

/-- Every call issued by upload1DArray is a transfer call whose
image-replace status equals the full-extent-and-mutable predicate. -/
theorem upload1DArray_path (ctx : Ctx) (t : TextureBuffer) (target : Nat)
    (range : TextureRangeDesc) (data : Option Nat) :
    ∀ c ∈ (upload1DArray ctx t target range data).2,
      isTransferCall c = true ∧
      isImageReplaceCall c =
        (isValidForTexImage t range && ! supportsTexStorage ctx t) := by
  intro c hc
  unfold upload1DArray at hc
  cases hv : (validateRange t range).isOk with
  | false => simp [hv] at hc
  | true =>
      simp only [hv] at hc
      cases hb : (isValidForTexImage t range && ! supportsTexStorage ctx t) <;>
        cases hd : (data.isNone || ! ctx.formatIsCompressed t.format) <;>
          simp [hb, hd] at hc <;> subst hc <;>
            simp [isTransferCall, isImageReplaceCall, hb]

/-- Every call issued by upload2D is a transfer call whose image-replace
status equals the full-extent-and-mutable predicate. -/
theorem upload2D_path (ctx : Ctx) (t : TextureBuffer) (target : Nat)
    (range : TextureRangeDesc) (data : Option Nat) :
    ∀ c ∈ (upload2D ctx t target range data).2,
      isTransferCall c = true ∧
      isImageReplaceCall c =
        (isValidForTexImage t range && ! supportsTexStorage ctx t) := by
  intro c hc
  unfold upload2D at hc
  cases hv : (validateRange t range).isOk with
  | false => simp [hv] at hc
  | true =>
      simp only [hv] at hc
      cases hb : (isValidForTexImage t range && ! supportsTexStorage ctx t) <;>
        cases hd : (data.isNone || ! ctx.formatIsCompressed t.format) <;>
          simp [hb, hd] at hc <;> subst hc <;>
            simp [isTransferCall, isImageReplaceCall, hb]

/-- Every call issued by upload2DArray is a transfer call whose
image-replace status equals the full-extent-and-mutable predicate. -/
theorem upload2DArray_path (ctx : Ctx) (t : TextureBuffer) (target : Nat)
    (range : TextureRangeDesc) (data : Option Nat) :
    ∀ c ∈ (upload2DArray ctx t target range data).2,
      isTransferCall c = true ∧
      isImageReplaceCall c =
        (isValidForTexImage t range && ! supportsTexStorage ctx t) := by
  intro c hc
  unfold upload2DArray at hc
  cases hv : (validateRange t range).isOk with
  | false => simp [hv] at hc
  | true =>
      simp only [hv] at hc
      cases hb : (isValidForTexImage t range && ! supportsTexStorage ctx t) <;>
        cases hd : (data.isNone || ! ctx.formatIsCompressed t.format) <;>
          simp [hb, hd] at hc <;> subst hc <;>
            simp [isTransferCall, isImageReplaceCall, hb]

/-- Every call issued by upload3D is a transfer call whose image-replace
status equals the full-extent-and-mutable predicate. -/
theorem upload3D_path (ctx : Ctx) (t : TextureBuffer) (target : Nat)
    (range : TextureRangeDesc) (data : Option Nat) :
    ∀ c ∈ (upload3D ctx t target range data).2,
      isTransferCall c = true ∧
      isImageReplaceCall c =
        (isValidForTexImage t range && ! supportsTexStorage ctx t) := by
  intro c hc
  unfold upload3D at hc
  cases hv : (validateRange t range).isOk with
  | false => simp [hv] at hc
  | true =>
      simp only [hv] at hc
      cases hb : (isValidForTexImage t range && ! supportsTexStorage ctx t) <;>
        cases hd : (data.isNone || ! ctx.formatIsCompressed t.format) <;>
          simp [hb, hd] at hc <;> subst hc <;>
            simp [isTransferCall, isImageReplaceCall, hb]

/-- C1: in every upload routine (upload1D, upload1DArray, upload2D,
upload2DArray, upload3D), a transfer call issued for a range is on the
image-replace (TexImage) path iff the range covers the full extent of the
resource at its mip level and the resource was allocated Mutable (does not
use immutable TexStorage); any partial region, or any region of an
Immutable resource, goes through the sub-image-replace (TexSubImage)
path. -/
theorem upload_path_image_replace_iff (ctx : Ctx) (t : TextureBuffer)
    (target : Nat) (range : TextureRangeDesc) (data : Option Nat) (c : GLCall)
    (hc : c ∈ (upload1D ctx t target range data).2 ∨
          c ∈ (upload1DArray ctx t target range data).2 ∨
          c ∈ (upload2D ctx t target range data).2 ∨
          c ∈ (upload2DArray ctx t target range data).2 ∨
          c ∈ (upload3D ctx t target range data).2) :
    isTransferCall c = true ∧
    (isImageReplaceCall c = true ↔
      (isValidForTexImage t range = true ∧ supportsTexStorage ctx t = false)) := by
  have key : isTransferCall c = true ∧
      isImageReplaceCall c =
        (isValidForTexImage t range && ! supportsTexStorage ctx t) := by
    rcases hc with h | h | h | h | h
    · exact upload1D_path ctx t target range data c h
    · exact upload1DArray_path ctx t target range data c h
    · exact upload2D_path ctx t target range data c h
    · exact upload2DArray_path ctx t target range data c h
    · exact upload3D_path ctx t target range data c h
  refine ⟨key.1, ?_⟩
  rw [key.2]
  simp [Bool.and_eq_true, Bool.not_eq_true']

/-- Witness for C1: the full-extent upload on a Mutable 4x4 2D resource
issues the TexImage2D call, and the theorem classifies it. -/
theorem upload_path_image_replace_iff_witness :
    isTransferCall
        (GLCall.texImage2D GL_TEXTURE_2D 0 0x8058 4 4 0 0x1908 0x1401 (some 3))
        = true ∧
    (isImageReplaceCall
        (GLCall.texImage2D GL_TEXTURE_2D 0 0x8058 4 4 0 0x1908 0x1401 (some 3))
        = true ↔
      (isValidForTexImage tex2D fullRange44 = true ∧
        supportsTexStorage ctx0 tex2D = false)) :=
  upload_path_image_replace_iff ctx0 tex2D GL_TEXTURE_2D fullRange44 (some 3)
    (GLCall.texImage2D GL_TEXTURE_2D 0 0x8058 4 4 0 0x1908 0x1401 (some 3))
    (Or.inr (Or.inr (Or.inl (by decide))))

/-- C2 counterexample: with a null data pointer and numMipLevels = 2, the
public upload returns Ok (the null-data early return precedes the mip
check), not Unimplemented. -/
theorem upload_multimip_nulldata_returns_ok :
    (upload ctx0 tex2D rangeMips2 none 0).1.code = Code.Ok ∧
    Code.Ok ≠ Code.Unimplemented := by
  decide

/-- C2 as amended: with a non-null data pointer, on a resource with a known
target, the public upload with numMipLevels > 1 returns Unimplemented. -/
theorem upload_multimip_unimplemented (ctx : Ctx) (t : TextureBuffer)
    (range : TextureRangeDesc) (data : Option Nat) (bytesPerRow : Nat)
    (hd : data ≠ none) (ht : getTarget t ≠ 0) (hm : range.numMipLevels > 1) :
    (upload ctx t range data bytesPerRow).1.code = Code.Unimplemented := by
  rcases data with _ | d
  · exact absurd rfl hd
  · unfold upload uploadToTarget
    simp [ht, hm]

/-- Witness for the amended C2 at a concrete input. -/
theorem upload_multimip_unimplemented_witness :
    (upload ctx0 tex2D rangeMips2 (some 3) 0).1.code = Code.Unimplemented :=
  upload_multimip_unimplemented ctx0 tex2D rangeMips2 (some 3) 0
    (by decide) (by decide) (by decide)

/-- C3 counterexample: the public upload with a null data pointer on a
full-extent range of a Mutable resource returns Ok but issues no backend
call at all (the trace is empty), so no allocate-only image-replace or
sub-image-replace call is made. -/
theorem upload_nulldata_issues_no_call :
    (upload ctx0 tex2D fullRange44 none 0).2 = [] ∧
    (upload ctx0 tex2D fullRange44 none 0).1 = Result.okR := by
  decide

/-- C3 as amended: the public upload with a null data pointer returns Ok
immediately and issues no backend call, for every range; the allocate-only
null-data transfer exists only on the internal per-target overload used by
initialization. -/
theorem upload_nulldata_ok_and_silent (ctx : Ctx) (t : TextureBuffer)
    (range : TextureRangeDesc) (bytesPerRow : Nat) :
    upload ctx t range none bytesPerRow = (Result.okR, []) := by
  rfl

/-- A non-Cube dimensionality never maps to the cube-map bind target. -/
theorem toGLTarget_ne_cube (ty : TextureType) (ns : Nat)
    (h : ty ≠ TextureType.Cube) : toGLTarget ty ns ≠ GL_TEXTURE_CUBE_MAP := by
  cases ty
  case Cube => exact absurd rfl h
  case TwoD => dsimp only [toGLTarget]; split <;> decide
  case TwoDArray => dsimp only [toGLTarget]; split <;> decide
  case ThreeD => dsimp only [toGLTarget]; decide
  case ExternalImage => dsimp only [toGLTarget]; decide
  case Invalid => dsimp only [toGLTarget]; decide

/-- C4: uploadCube on a resource whose dimensionality is not Cube, with
non-null data and a single-mip range, returns InvalidOperation with an
empty backend trace: nothing is bound or transferred, so the context bound
state is untouched. -/
theorem uploadCube_noncube_invalid_operation (ctx : Ctx) (t : TextureBuffer)
    (range : TextureRangeDesc) (face : Fin 6) (data : Option Nat)
    (bytesPerRow : Nat) (htype : t.type ≠ TextureType.Cube)
    (hd : data ≠ none) (hm : range.numMipLevels = 1) :
    uploadCube ctx t range face data bytesPerRow =
      (⟨Code.InvalidOperation, "upload2D can only upload to 2D textures"⟩, []) := by
  have htgt : getTarget t ≠ GL_TEXTURE_CUBE_MAP :=
    toGLTarget_ne_cube t.type t.numSamples htype
  rcases data with _ | d
  · exact absurd rfl hd
  · unfold uploadCube
    simp [hm, htgt]

/-- Witness for C4: a 2D resource rejects a face upload untouched. -/
theorem uploadCube_noncube_invalid_operation_witness :
    uploadCube ctx0 tex2D fullRange44 0 (some 3) 0 =
      (⟨Code.InvalidOperation, "upload2D can only upload to 2D textures"⟩, []) :=
  uploadCube_noncube_invalid_operation ctx0 tex2D fullRange44 0 (some 3) 0
    (by decide) (by decide) (by decide)

/-- Once the handle cache is non-zero, any number of further getTextureId
calls return it unchanged with an empty backend trace. -/
theorem getTextureIdTimes_cached (ctx : Ctx) :
    ∀ (n : Nat) (t : TextureBuffer), t.textureHandle ≠ 0 →
      getTextureIdTimes ctx t n = (List.replicate n t.textureHandle, t, []) := by
  intro n
  induction n with
  | zero => intro t _; rfl
  | succ n ih =>
      intro t h
      unfold getTextureIdTimes getTextureId
      simp [h, ih t h, List.replicate_succ]

/-- C5: with an unresolved handle cache and a backend that resolves a
non-zero handle, n+1 calls to getTextureId resolve and mark resident
exactly once (two backend calls total) and return n+1 copies of the same
cached handle. -/
theorem getPersistentHandle_resolves_once (ctx : Ctx) (t : TextureBuffer)
    (n : Nat) (h0 : t.textureHandle = 0)
    (hh : ctx.handleOf t.textureId ≠ 0) :
    getTextureIdTimes ctx t (n + 1) =
      (List.replicate (n + 1) (ctx.handleOf t.textureId),
       { t with textureHandle := ctx.handleOf t.textureId },
       [GLCall.getTextureHandle t.textureId,
        GLCall.makeTextureHandleResident (ctx.handleOf t.textureId)]) := by
  unfold getTextureIdTimes getTextureId
  rw [if_pos h0]
  have hc := getTextureIdTimes_cached ctx n
    { t with textureHandle := ctx.handleOf t.textureId } (by simpa using hh)
  simp [hc, List.replicate_succ]

/-- Witness for C5: three calls on a fresh resource resolve handle 105
once and return it three times. -/
theorem getPersistentHandle_resolves_once_witness :
    getTextureIdTimes ctx0 tex2D 3 =
      (List.replicate 3 105, { tex2D with textureHandle := 105 },
       [GLCall.getTextureHandle 5, GLCall.makeTextureHandleResident 105]) :=
  getPersistentHandle_resolves_once ctx0 tex2D 2 rfl (by decide)

/-- C6: destruction of a resource with a backend object releases a
resident persistent handle before deleting the backend object, and
destruction of a never-allocated resource (id 0) issues no backend call. -/
theorem destructor_release_before_delete (t : TextureBuffer) :
    (t.textureId ≠ 0 → t.textureHandle ≠ 0 →
      destructor t = [GLCall.makeTextureHandleNonResident t.textureHandle,
                      GLCall.deleteTextures t.textureId]) ∧
    (t.textureId ≠ 0 → t.textureHandle = 0 →
      destructor t = [GLCall.deleteTextures t.textureId]) ∧
    (t.textureId = 0 → destructor t = []) := by
  refine ⟨fun h1 h2 => ?_, fun h1 h2 => ?_, fun h1 => ?_⟩
  · unfold destructor
    simp [h1, h2]
  · unfold destructor
    simp [h1, h2]
  · unfold destructor
    simp [h1]

/-- Witness for C6 at the three concrete destruction situations. -/
theorem destructor_release_before_delete_witness :
    destructor { tex2D with textureHandle := 42 } =
      [GLCall.makeTextureHandleNonResident 42, GLCall.deleteTextures 5] ∧
    destructor tex2D = [GLCall.deleteTextures 5] ∧
    destructor { tex2D with textureId := 0 } = [] :=
  ⟨(destructor_release_before_delete _).1 (by decide) (by decide),
   (destructor_release_before_delete _).2.1 (by decide) rfl,
   (destructor_release_before_delete _).2.2 rfl⟩

/-- C9: on a Cube resource, uploadCube with non-null data and a single-mip
range always returns the default Ok result, whatever the inner single-face
upload returned (its result is discarded). -/
theorem uploadCube_cube_discards_inner_result (ctx : Ctx) (t : TextureBuffer)
    (range : TextureRangeDesc) (face : Fin 6) (data : Option Nat)
    (bytesPerRow : Nat) (htype : t.type = TextureType.Cube)
    (hd : data ≠ none) (hm : range.numMipLevels = 1) :
    (uploadCube ctx t range face data bytesPerRow).1 = Result.okR := by
  have htgt : getTarget t = GL_TEXTURE_CUBE_MAP := by
    unfold getTarget
    rw [htype]
    rfl
  rcases data with _ | d
  · exact absurd rfl hd
  · unfold uploadCube
    simp [hm, htgt]

/-- Witness for C9: the face upload fails range validation (width 5 on a
4-wide resource), yet uploadCube returns Ok. -/
theorem uploadCube_cube_discards_inner_result_witness :
    (uploadCube ctx0 texCube badRange 0 (some 3) 0).1 = Result.okR ∧
    (upload2D ctx0 texCube 0x8515 badRange (some 3)).1.isOk = false :=
  ⟨uploadCube_cube_discards_inner_result ctx0 texCube badRange 0 (some 3) 0
      rfl (by decide) rfl,
   by decide⟩

/-- A failed accumulator is left untouched by the rest of the spec fold. -/
theorem mipStep_foldl_stuck (ctx : Ctx) (t : TextureBuffer) :
    ∀ (l : List Nat) (acc : Result × List GLCall), acc.1.isOk = false →
      l.foldl (mipStep ctx t) acc = acc := by
  intro l
  induction l with
  | nil => intro acc _; rfl
  | cons i l ih =>
      intro acc h
      have hm : mipStep ctx t acc i = acc := by
        unfold mipStep
        rw [if_neg (by simp [h])]
      simp only [List.foldl_cons, hm]
      exact ih acc h

/-- The embedded per-level loop agrees with the spec-side fold, for any
level list and accumulated trace. -/
theorem mipStep_foldl_eq_initUpload (ctx : Ctx) (t : TextureBuffer) :
    ∀ (l : List Nat) (tr : List GLCall),
      l.foldl (mipStep ctx t) (Result.okR, tr) =
        ((initUploadLevels ctx t l).1, tr ++ (initUploadLevels ctx t l).2) := by
  intro l
  induction l with
  | nil => intro tr; simp [initUploadLevels]
  | cons i l ih =>
      intro tr
      rw [List.foldl_cons]
      unfold initUploadLevels
      cases hs : (uploadToTarget ctx t (getTarget t) (getFullRange t i 1) none 0).1.isOk
      · have hm : mipStep ctx t (Result.okR, tr) i =
            ((uploadToTarget ctx t (getTarget t) (getFullRange t i 1) none 0).1,
             tr ++ (uploadToTarget ctx t (getTarget t) (getFullRange t i 1) none 0).2) := by
          unfold mipStep
          rw [if_pos (show (((Result.okR, tr) : Result × List GLCall)).1.isOk = true from rfl)]
          dsimp only
          rw [if_neg (by simp [hs])]
        rw [hm, mipStep_foldl_stuck ctx t l _ (by simpa using hs)]
        simp [hs]
      · have hm : mipStep ctx t (Result.okR, tr) i =
            (Result.okR,
             tr ++ (uploadToTarget ctx t (getTarget t) (getFullRange t i 1) none 0).2) := by
          unfold mipStep
          rw [if_pos (show (((Result.okR, tr) : Result × List GLCall)).1.isOk = true from rfl)]
          dsimp only
          rw [if_pos hs]
        rw [hm, ih]
        simp [hs]

/-- C7: for a Mutable allocation the mip-chain initializer equals the spec
fold that walks mip levels 0..N-1 in order with a null data pointer at the
full extent of each level, stopping at the first failure; for an Immutable
(TexStorage) allocation it issues exactly one dimension-specific storage
reservation covering all mip levels at full extent. -/
theorem mipchain_initialization (ctx : Ctx) (t : TextureBuffer) :
    (supportsTexStorage ctx t = false →
      initializeWithUpload ctx t = mipChainMutableSpec ctx t) ∧
    (supportsTexStorage ctx t = true →
      (t.type = TextureType.TwoD ∨ t.type = TextureType.TwoDArray ∨
        t.type = TextureType.ThreeD ∨ t.type = TextureType.Cube) →
      ∃ c, (initializeWithTexStorage ctx t).2 = [c] ∧
        isStorageReservationCall c = true ∧
        reservesAllMipsFullExtent t c = true) := by
  constructor
  · intro _
    unfold initializeWithUpload mipChainMutableSpec
    rw [mipStep_foldl_eq_initUpload ctx t (List.range t.numMipLevels) []]
    simp
  · intro _ htype
    rcases htype with h | h | h | h <;>
      · unfold initializeWithTexStorage
        rw [h]
        refine ⟨_, rfl, by simp [isStorageReservationCall], ?_⟩
        unfold reservesAllMipsFullExtent
        rw [h]
        simp [getFullRange]

/-- Witness for C7: the Mutable equality at a concrete 2D resource, and the
single full-chain texStorage reservation of a Storage cube resource. -/
theorem mipchain_initialization_witness :
    initializeWithUpload ctx0 tex2D = mipChainMutableSpec ctx0 tex2D ∧
    ∃ c, (initializeWithTexStorage ctxStorage texCubeStorage).2 = [c] ∧
      isStorageReservationCall c = true ∧
      reservesAllMipsFullExtent texCubeStorage c = true :=
  ⟨(mipchain_initialization ctx0 tex2D).1 (by decide),
   (mipchain_initialization ctxStorage texCubeStorage).2 (by decide)
     (Or.inr (Or.inr (Or.inr rfl)))⟩

/-- Transfer calls are never bindTexture calls. -/
theorem not_bind_of_transfer (c : GLCall) (h : isTransferCall c = true) :
    isBindCall c = false := by
  cases c <;> simp_all [isTransferCall, isBindCall]

/-- A trace with no bindTexture call has no bind events. -/
theorem bindEvents_nil (l : List GLCall) (h : ∀ c ∈ l, isBindCall c = false)
    (tgt : Nat) : bindEvents l tgt = [] := by
  unfold bindEvents
  rw [List.filterMap_eq_nil_iff]
  intro c hc
  have := h c hc
  cases c <;> simp_all [isBindCall]

/-- Every call issued by the cube-face loop is a transfer call. -/
theorem uploadCubeFaces_transfer (ctx : Ctx) (t : TextureBuffer)
    (range : TextureRangeDesc) (data : Option Nat) :
    ∀ (fs : List Nat), ∀ c ∈ (uploadCubeFaces ctx t range data fs).2,
      isTransferCall c = true := by
  intro fs
  induction fs with
  | nil => intro c hc; simp [uploadCubeFaces] at hc
  | cons f fs ih =>
      intro c hc
      unfold uploadCubeFaces at hc
      by_cases hs : (upload2D ctx t f range data).1.isOk = true
      · rw [if_pos hs] at hc
        simp only [List.mem_append] at hc
        rcases hc with hc | hc
        · exact (upload2D_path ctx t f range data c hc).1
        · exact ih c hc
      · rw [if_neg hs] at hc
        exact (upload2D_path ctx t f range data c hc).1

/-- The internal GLenum upload overload never issues a bindTexture call. -/
theorem uploadToTarget_no_bind (ctx : Ctx) (t : TextureBuffer) (target : Nat)
    (range : TextureRangeDesc) (data : Option Nat) (bytesPerRow : Nat) :
    ∀ c ∈ (uploadToTarget ctx t target range data bytesPerRow).2,
      isBindCall c = false := by
  intro c hc
  unfold uploadToTarget at hc
  split at hc
  · simp at hc
  · split at hc <;> try split at hc
    all_goals
      simp only [List.mem_cons, List.mem_singleton] at hc
    all_goals
      rcases hc with hc | hc
    all_goals try (subst hc; simp [isBindCall])
    all_goals first
      | simp at hc
      | exact not_bind_of_transfer c ((upload2D_path ctx t target range data c hc).1)
      | exact not_bind_of_transfer c ((upload2DArray_path ctx t target range data c hc).1)
      | exact not_bind_of_transfer c ((upload3D_path ctx t target range data c hc).1)
      | exact not_bind_of_transfer c (uploadCubeFaces_transfer ctx t range data _ c hc)

/-- bindEvents distributes over trace concatenation. -/
theorem bindEvents_append (l1 l2 : List GLCall) (tgt : Nat) :
    bindEvents (l1 ++ l2) tgt = bindEvents l1 tgt ++ bindEvents l2 tgt := by
  simp [bindEvents, List.filterMap_append]

/-- bindEvents of a trace headed by a bindTexture call. -/
theorem bindEvents_bind_cons (target id : Nat) (l : List GLCall) (tgt : Nat) :
    bindEvents (GLCall.bindTexture target id :: l) tgt =
      (if target = tgt then [id] else []) ++ bindEvents l tgt := by
  unfold bindEvents
  rw [List.filterMap_cons]
  split <;> simp_all

/-- bindEvents ignores a non-bind head call. -/
theorem bindEvents_skip_cons (c : GLCall) (h : isBindCall c = false)
    (l : List GLCall) (tgt : Nat) :
    bindEvents (c :: l) tgt = bindEvents l tgt := by
  unfold bindEvents
  rw [List.filterMap_cons]
  cases c <;> simp_all [isBindCall]

/-- A bind of T, a bind-free middle, and a final bind of T to 0 restore
every target. -/
theorem restores_of_shape (T id : Nat) (mid : List GLCall)
    (hmid : ∀ c ∈ mid, isBindCall c = false) :
    restoresBindings
      (GLCall.bindTexture T id :: (mid ++ [GLCall.bindTexture T 0])) := by
  intro tgt
  rw [bindEvents_bind_cons, bindEvents_append, bindEvents_nil mid hmid,
    bindEvents_bind_cons]
  by_cases h : T = tgt
  · right
    simp [h, bindEvents]
  · left
    simp [h, bindEvents]

/-- The per-level initialization loop never issues a bindTexture call. -/
theorem initUploadLevels_no_bind (ctx : Ctx) (t : TextureBuffer) :
    ∀ (l : List Nat), ∀ c ∈ (initUploadLevels ctx t l).2,
      isBindCall c = false := by
  intro l
  induction l with
  | nil => intro c hc; simp [initUploadLevels] at hc
  | cons i l ih =>
      intro c hc
      unfold initUploadLevels at hc
      by_cases hs : (uploadToTarget ctx t (getTarget t) (getFullRange t i 1) none 0).1.isOk = true
      · rw [if_neg (by simp [hs])] at hc
        simp only [List.mem_append] at hc
        rcases hc with hc | hc
        · exact uploadToTarget_no_bind ctx t (getTarget t) (getFullRange t i 1) none 0 c hc
        · exact ih c hc
      · rw [if_pos hs] at hc
        exact uploadToTarget_no_bind ctx t (getTarget t) (getFullRange t i 1) none 0 c hc

/-- The TexStorage initializer never issues a bindTexture call. -/
theorem initializeWithTexStorage_no_bind (ctx : Ctx) (t : TextureBuffer) :
    ∀ c ∈ (initializeWithTexStorage ctx t).2, isBindCall c = false := by
  intro c hc
  unfold initializeWithTexStorage at hc
  split at hc <;> simp at hc <;> simp [hc, isBindCall]

/-- The swizzle workaround never issues a bindTexture call. -/
theorem swapChannels_no_bind (ctx : Ctx) (target iglFormat : Nat) :
    ∀ c ∈ swapTextureChannelsForFormat ctx target iglFormat,
      isBindCall c = false := by
  intro c hc
  unfold swapTextureChannelsForFormat at hc
  split at hc
  · simp only [List.mem_cons, List.mem_singleton] at hc
    rcases hc with hc | hc | hc | hc | hc <;> simp_all [isBindCall]
  · simp at hc

/-- A non-bind head call does not change the restore property. -/
theorem restores_skip_cons (c : GLCall) (h : isBindCall c = false)
    (l : List GLCall) (hr : restoresBindings l) : restoresBindings (c :: l) := by
  intro tgt
  rw [bindEvents_skip_cons c h]
  exact hr tgt

/-- A bind of T, two bind-free segments, and a final bind of T to 0
restore every target. -/
theorem restores_pre_body (T id : Nat) (l1 l2 : List GLCall)
    (h1 : ∀ c ∈ l1, isBindCall c = false)
    (h2 : ∀ c ∈ l2, isBindCall c = false) :
    restoresBindings
      ((GLCall.bindTexture T id :: l1) ++ l2 ++ [GLCall.bindTexture T 0]) := by
  have hsplit : (GLCall.bindTexture T id :: l1) ++ l2 ++ [GLCall.bindTexture T 0] =
      GLCall.bindTexture T id :: ((l1 ++ l2) ++ [GLCall.bindTexture T 0]) := by
    simp
  rw [hsplit]
  apply restores_of_shape
  intro c hc
  rcases List.mem_append.mp hc with h | h
  · exact h1 c h
  · exact h2 c h

/-- The public upload restores every bind target on every exit path. -/
theorem upload_restores_bindings (ctx : Ctx) (t : TextureBuffer)
    (range : TextureRangeDesc) (data : Option Nat) (bytesPerRow : Nat) :
    restoresBindings (upload ctx t range data bytesPerRow).2 := by
  unfold upload
  by_cases hd : data.isNone = true
  · rw [if_pos hd]
    intro tgt
    left
    rfl
  · rw [if_neg hd]
    by_cases ht : getTarget t = 0
    · rw [if_pos ht]
      intro tgt
      left
      rfl
    · rw [if_neg ht]
      exact restores_of_shape (getTarget t) t.textureId _
        (fun c hc => uploadToTarget_no_bind ctx t (getTarget t) range data bytesPerRow c hc)

/-- uploadCube restores every bind target on every exit path. -/
theorem uploadCube_restores_bindings (ctx : Ctx) (t : TextureBuffer)
    (range : TextureRangeDesc) (face : Fin 6) (data : Option Nat)
    (bytesPerRow : Nat) :
    restoresBindings (uploadCube ctx t range face data bytesPerRow).2 := by
  unfold uploadCube
  by_cases hd : data.isNone = true
  · rw [if_pos hd]
    intro tgt
    left
    rfl
  · rw [if_neg hd]
    by_cases hm : range.numMipLevels > 1
    · rw [if_pos hm]
      intro tgt
      left
      rfl
    · rw [if_neg hm]
      by_cases ht : getTarget t ≠ GL_TEXTURE_CUBE_MAP
      · rw [if_pos ht]
        intro tgt
        left
        rfl
      · rw [if_neg ht]
        dsimp only
        apply restores_skip_cons _ (by simp [isBindCall])
        exact restores_of_shape (getTarget t) t.textureId _
          (fun c hc => not_bind_of_transfer c
            (upload2D_path ctx t (kCubeFaceTargets.getD face.val 0) range data c hc).1)

/-- Initialization restores every bind target on every exit path. -/
theorem initializeTexture_restores_bindings (ctx : Ctx) (t : TextureBuffer) :
    restoresBindings (initializeTexture ctx t).2 := by
  unfold initializeTexture
  by_cases ht : getTarget t = 0
  · rw [if_pos ht]
    intro tgt
    left
    rfl
  · rw [if_neg ht]
    dsimp only
    apply restores_pre_body
    · intro c hc
      simp only [List.mem_cons, List.mem_append] at hc
      rcases hc with hc | hc | hc
      · simp [hc, isBindCall]
      · split at hc
        · simp only [List.mem_singleton] at hc
          simp [hc, isBindCall]
        · simp at hc
      · split at hc
        · exact swapChannels_no_bind ctx (getTarget t) t.format c hc
        · simp at hc
    · intro c hc
      split at hc
      · split at hc
        · exact initUploadLevels_no_bind ctx t (List.range t.numMipLevels) c hc
        · exact initializeWithTexStorage_no_bind ctx t c hc
      · simp at hc

/-- C8: every public upload, every cube-face upload and every
initialization call leaves each bind target either untouched or restored
to 0 on every exit path, success or failure: no call leaks bound state. -/
theorem upload_binding_discipline (ctx : Ctx) (t : TextureBuffer)
    (range : TextureRangeDesc) (face : Fin 6) (data : Option Nat)
    (bytesPerRow : Nat) :
    restoresBindings (upload ctx t range data bytesPerRow).2 ∧
    restoresBindings (uploadCube ctx t range face data bytesPerRow).2 ∧
    restoresBindings (initializeTexture ctx t).2 :=
  ⟨upload_restores_bindings ctx t range data bytesPerRow,
   uploadCube_restores_bindings ctx t range face data bytesPerRow,
   initializeTexture_restores_bindings ctx t⟩

/-- C10: when the base-class create succeeds, a 2D single-mip descriptor
whose usage has neither Sampled nor Storage is rejected as Unsupported
with message invalid usage and an empty backend trace (no texture object
allocated); any descriptor with Sampled or Storage usage, a non-2D type,
or more than one mip level bypasses the gate into createTexture. -/
theorem create_usage_gate (ctx : Ctx) (desc : TextureDesc)
    (hasStorageAlready : Bool)
    (hsuper : (ctx.superCreate hasStorageAlready).isOk = true) :
    (desc.type = TextureType.TwoD → desc.numMipLevels = 1 →
      desc.usage &&& (sampledBit ||| storageBit) = 0 →
      create ctx desc hasStorageAlready =
        (⟨Code.Unsupported, "invalid usage!"⟩, [])) ∧
    ((desc.usage &&& (sampledBit ||| storageBit) ≠ 0 ∨
        desc.type ≠ TextureType.TwoD ∨ desc.numMipLevels > 1) →
      create ctx desc hasStorageAlready = createTexture ctx desc) := by
  constructor
  · intro h1 h2 h3
    unfold create
    rw [if_pos hsuper, if_neg]
    push_neg
    exact ⟨h3, h1, by omega⟩
  · intro h
    unfold create
    rw [if_pos hsuper, if_pos h]

/-- Witness for C10: the Attachment-only 2D descriptor is gated; the
Sampled one reaches createTexture. -/
theorem create_usage_gate_witness :
    create ctx0 descAttachment false =
      (⟨Code.Unsupported, "invalid usage!"⟩, []) ∧
    create ctx0 descSampled false = createTexture ctx0 descSampled :=
  ⟨(create_usage_gate ctx0 descAttachment false (by decide)).1 rfl rfl (by decide),
   (create_usage_gate ctx0 descSampled false (by decide)).2 (Or.inl (by decide))⟩

end Igl
